import Mathlib

/-!
Shallow embedding of the password strength meter and generator of
src/app.py.  Passwords are modelled as lists of characters.  The
character-class tests follow the ASCII regexes of the source
([A-Z], [a-z], the digit class, [!@#$%^&*]); Char.isUpper, Char.isLower
and Char.isDigit are exactly those ASCII ranges.
-/

namespace PasswordMeter

/-- Lowercasing, as Python str.lower.  Char.toLower agrees with Python
lower on the ASCII range, which covers every blacklist entry and every
character class tested by the scorer. -/
def pyLower (p : List Char) : List Char := p.map Char.toLower

/-- BLACKLIST from src/app.py lines 13-23.  The duplicate "letmein" of
the source literal is kept; list membership is the frozenset membership. -/
def BLACKLIST : List (List Char) := [
  "password".toList, "password123".toList, "123456".toList, "qwerty".toList, "letmein".toList,
  "admin".toList, "welcome".toList, "111111".toList, "123123".toList, "iloveyou".toList, "master".toList,
  "sunshine".toList, "123456789".toList, "football".toList, "baseball".toList, "monkey".toList,
  "letmein".toList, "shadow".toList, "password1".toList, "12345678".toList, "1234".toList, "abc123".toList,
  "1234567".toList, "password!".toList, "12345".toList, "dragon".toList, "qwerty123".toList, "superman".toList,
  "987654321".toList, "mypass".toList, "trustno1".toList, "hello".toList, "freedom".toList, "princess".toList,
  "qazwsx".toList, "ninja".toList, "azerty".toList, "password12".toList, "654321".toList, "passw0rd".toList,
  "qwertyuiop".toList, "123321".toList, "1234567890".toList, "123456a".toList, "letmein123".toList, "666666".toList,
  "123abc".toList, "password1234".toList, "qwerty1234".toList, "123456789a".toList, "123456789z".toList, "123456789x".toList]

/-- Special characters tested and generated, "!@#$%^&*" (app.py lines 77, 135, 138). -/
def special_chars : List Char := "!@#$%^&*".toList

/-- Feedback message for a blacklisted password (app.py line 53). -/
def commonMsg : String := "This password is too common. Please choose a different one."

/-- Feedback message for a short password (app.py line 62). -/
def lengthMsg : String := "Increase the length to at least 8 characters."

/-- Feedback message for missing case diversity (app.py line 68). -/
def caseMsg : String := "Use both uppercase and lowercase letters."

/-- Feedback message for a missing digit (app.py line 74). -/
def digitMsg : String := "Include at least one numeric digit (0-9)."

/-- Feedback message for a missing special character (app.py line 80). -/
def specialMsg : String := "Add at least one special character (!@#$%^&*)."

/-- Feedback message for a triple character repetition (app.py line 88). -/
def repeatMsg : String := "Avoid using the same character three times consecutively."

/-- Feedback message for a sequential run (app.py line 98). -/
def seqMsg : String := "Avoid using sequential characters (e.g., \x27abc\x27, \x27cba\x27, \x27123\x27, or \x27321\x27); they weaken your password."

/-- Search for an uppercase ASCII letter, the regex [A-Z] of app.py line 65. -/
def hasUpper (p : List Char) : Bool := p.any Char.isUpper

/-- Search for a lowercase ASCII letter, the regex [a-z] of app.py line 65. -/
def hasLower (p : List Char) : Bool := p.any Char.isLower

/-- Search for a decimal digit, the digit regex of app.py line 71. -/
def hasDigit (p : List Char) : Bool := p.any Char.isDigit

/-- Search for a special character, the regex [!@#$%^&*] of app.py line 77. -/
def hasSpecial (p : List Char) : Bool := p.any (fun c => decide (c ∈ special_chars))

/-- Repetition check of app.py line 87: some character occurs at three
consecutive positions (the regex backreference pattern). -/
def hasTripleRepeat : List Char → Bool
  | a :: b :: c :: rest => (a == b && b == c) || hasTripleRepeat (b :: c :: rest)
  | _ => false

/-- Test of one window of the sequential scan (app.py lines 94-97): the
three characters are all letters or all digits, and their codes ascend by
one at each step or descend by one at each step. -/
def tripleSeq (a b c : Char) : Bool :=
  ((a.isAlpha && b.isAlpha && c.isAlpha) || (a.isDigit && b.isDigit && c.isDigit)) &&
    ((b.toNat == a.toNat + 1 && c.toNat == b.toNat + 1) ||
     (a.toNat == b.toNat + 1 && b.toNat == c.toNat + 1))

/-- Sequential scan of app.py lines 92-99: the loop appends the warning at
the first window satisfying tripleSeq and breaks, so the warning appears
exactly when some window matches. -/
def hasSequential : List Char → Bool
  | a :: b :: c :: rest => tripleSeq a b c || hasSequential (b :: c :: rest)
  | _ => false

/-- Length scoring of app.py lines 57-62: +2 for length at least 12, else
+1 for length at least 8, else nothing. -/
def lengthScore (p : List Char) : Nat :=
  if 12 ≤ p.length then 2 else if 8 ≤ p.length then 1 else 0

/-- Case-diversity scoring of app.py lines 65-66. -/
def caseScore (p : List Char) : Nat := if hasUpper p && hasLower p then 1 else 0

/-- Digit scoring of app.py lines 71-72. -/
def digitScore (p : List Char) : Nat := if hasDigit p then 1 else 0

/-- Special-character scoring of app.py lines 77-78. -/
def specialScore (p : List Char) : Nat := if hasSpecial p then 1 else 0

/-- Length bonus of app.py lines 83-84: +1 for length at least 16. -/
def bonusScore (p : List Char) : Nat := if 16 ≤ p.length then 1 else 0

/-- Total score accumulated by the non-blacklist path of evaluate_password:
the five scoring checks of app.py lines 56-84, in order.  The repetition and
sequential checks never touch the score. -/
def totalScore (p : List Char) : Nat :=
  lengthScore p + caseScore p + digitScore p + specialScore p + bonusScore p

/-- Feedback accumulated by the non-blacklist path of evaluate_password, in
the order the checks of app.py lines 56-99 append their messages. -/
def feedbackList (p : List Char) : List String :=
  (if 8 ≤ p.length then [] else [lengthMsg]) ++
  (if hasUpper p && hasLower p then [] else [caseMsg]) ++
  (if hasDigit p then [] else [digitMsg]) ++
  (if hasSpecial p then [] else [specialMsg]) ++
  (if hasTripleRepeat p then [repeatMsg] else []) ++
  (if hasSequential p then [seqMsg] else [])

/-- Strength classification of app.py lines 101-107. -/
def strengthOf (score : Nat) : String :=
  if 5 ≤ score then "Strong" else if 3 ≤ score then "Moderate" else "Weak"

/-- Result record of evaluate_password: the returned triple. -/
structure EvalResult where
  strength : String
  score : Nat
  feedback : List String
  deriving DecidableEq

/-- evaluate_password of app.py lines 25-109: blacklist short-circuit,
then the scoring and feedback checks, then the strength classification. -/
def evaluate_password (password : List Char) : EvalResult :=
  if pyLower password ∈ BLACKLIST then
    { strength := "Weak", score := 0, feedback := [commonMsg] }
  else
    { strength := strengthOf (totalScore password),
      score := totalScore password,
      feedback := feedbackList password }

/-! Helper lemmas about the scorer. -/

lemma lengthScore_le (p : List Char) : lengthScore p ≤ 2 := by
  unfold lengthScore
  split
  · omega
  · split <;> omega

lemma caseScore_le (p : List Char) : caseScore p ≤ 1 := by
  unfold caseScore
  split <;> omega

lemma digitScore_le (p : List Char) : digitScore p ≤ 1 := by
  unfold digitScore
  split <;> omega

lemma specialScore_le (p : List Char) : specialScore p ≤ 1 := by
  unfold specialScore
  split <;> omega

lemma bonusScore_le (p : List Char) : bonusScore p ≤ 1 := by
  unfold bonusScore
  split <;> omega

lemma totalScore_le (p : List Char) : totalScore p ≤ 6 := by
  have h1 := lengthScore_le p
  have h2 := caseScore_le p
  have h3 := digitScore_le p
  have h4 := specialScore_le p
  have h5 := bonusScore_le p
  unfold totalScore
  omega

lemma strengthOf_cases (s : Nat) :
    strengthOf s = "Weak" ∨ strengthOf s = "Moderate" ∨ strengthOf s = "Strong" := by
  unfold strengthOf
  split
  · exact Or.inr (Or.inr rfl)
  · split
    · exact Or.inr (Or.inl rfl)
    · exact Or.inl rfl

lemma strengthOf_eq_strong (s : Nat) (h : strengthOf s = "Strong") : 5 ≤ s := by
  unfold strengthOf at h
  split at h
  · assumption
  · split at h <;> simp_all

lemma blacklist_length_le : ∀ b ∈ BLACKLIST, b.length ≤ 12 := by decide

/-! Claim theorems about the evaluator. -/

/-- Claim C1: a password whose lowercased form is blacklisted evaluates to
strength Weak, score 0, and exactly the common-password message, with no
further scoring performed. -/
theorem claim_C1 (p : List Char) (h : pyLower p ∈ BLACKLIST) :
    evaluate_password p = ⟨"Weak", 0, [commonMsg]⟩ := by
  simp [evaluate_password, h]

/-- Witness for claim C1 at the concrete input "Qwerty". -/
theorem claim_C1_witness :
    pyLower ("Qwerty".toList) ∈ BLACKLIST ∧
      evaluate_password ("Qwerty".toList) = ⟨"Weak", 0, [commonMsg]⟩ :=
  ⟨by decide, claim_C1 ("Qwerty".toList) (by decide)⟩

/-- Claim C3: the score of evaluate_password is always between 0 and 6 (it
is a Nat here, so at least 0), and the strength is one of Weak, Moderate,
Strong. -/
theorem claim_C3 (p : List Char) :
    (evaluate_password p).score ≤ 6 ∧
      ((evaluate_password p).strength = "Weak" ∨
        (evaluate_password p).strength = "Moderate" ∨
        (evaluate_password p).strength = "Strong") := by
  unfold evaluate_password
  split
  · exact ⟨by simp, Or.inl rfl⟩
  · exact ⟨totalScore_le p, strengthOf_cases (totalScore p)⟩

/-- Claim C4: for a non-blacklisted password the strength is derived from
the final score by the thresholds 5 (Strong) and 3 (Moderate). -/
theorem claim_C4 (p : List Char) (h : pyLower p ∉ BLACKLIST) :
    (evaluate_password p).strength =
      (if 5 ≤ (evaluate_password p).score then "Strong"
       else if 3 ≤ (evaluate_password p).score then "Moderate" else "Weak") := by
  simp [evaluate_password, h, strengthOf]

/-- Witness for claim C4 at the concrete input "zx". -/
theorem claim_C4_witness :
    pyLower ("zx".toList) ∉ BLACKLIST ∧
      (evaluate_password ("zx".toList)).strength =
        (if 5 ≤ (evaluate_password ("zx".toList)).score then "Strong"
         else if 3 ≤ (evaluate_password ("zx".toList)).score then "Moderate" else "Weak") :=
  ⟨by decide, claim_C4 ("zx".toList) (by decide)⟩

/-- Counterexample to claim C6 as stated: the 15-character password
"Aa1!aaaaaaaaaaa" contains all four classes and is not blacklisted, yet its
score is 5, not 4, and its strength is "Strong", not "Moderate" (length 12
or more already earns +2, so four classes at length 15 reach 2+1+1+1 = 5). -/
theorem claim_C6_counterexample :
    ("Aa1!aaaaaaaaaaa".toList).length = 15 ∧
      hasUpper ("Aa1!aaaaaaaaaaa".toList) = true ∧
      hasLower ("Aa1!aaaaaaaaaaa".toList) = true ∧
      hasDigit ("Aa1!aaaaaaaaaaa".toList) = true ∧
      hasSpecial ("Aa1!aaaaaaaaaaa".toList) = true ∧
      pyLower ("Aa1!aaaaaaaaaaa".toList) ∉ BLACKLIST ∧
      ¬((evaluate_password ("Aa1!aaaaaaaaaaa".toList)).score = 4 ∧
        (evaluate_password ("Aa1!aaaaaaaaaaa".toList)).strength = "Moderate") := by
  decide

/-- Claim C6 amended: every 15-character non-blacklisted password with all
four classes scores 5 with strength "Strong", and every 16-character
password with all four classes scores 6 with strength "Strong" (the length
16 still marks the bonus boundary: the score rises from 5 to 6 there). -/
theorem claim_C6 :
    (∀ p : List Char, p.length = 15 → hasUpper p = true → hasLower p = true →
      hasDigit p = true → hasSpecial p = true → pyLower p ∉ BLACKLIST →
      (evaluate_password p).score = 5 ∧ (evaluate_password p).strength = "Strong") ∧
    (∀ p : List Char, p.length = 16 → hasUpper p = true → hasLower p = true →
      hasDigit p = true → hasSpecial p = true →
      (evaluate_password p).score = 6 ∧ (evaluate_password p).strength = "Strong") := by
  constructor
  · intro p hlen hU hL hD hS hB
    have hsc : totalScore p = 5 := by
      unfold totalScore lengthScore caseScore digitScore specialScore bonusScore
      rw [hlen]
      simp [hU, hL, hD, hS]
    simp [evaluate_password, hB, hsc, strengthOf]
  · intro p hlen hU hL hD hS
    have hB : pyLower p ∉ BLACKLIST := by
      intro hmem
      have h12 := blacklist_length_le _ hmem
      have : (pyLower p).length = 16 := by
        unfold pyLower
        rw [List.length_map, hlen]
      omega
    have hsc : totalScore p = 6 := by
      unfold totalScore lengthScore caseScore digitScore specialScore bonusScore
      rw [hlen]
      simp [hU, hL, hD, hS]
    simp [evaluate_password, hB, hsc, strengthOf]

/-- Witness for the amended claim C6 at 15- and 16-character inputs. -/
theorem claim_C6_witness :
    ((evaluate_password ("Aa1!bbbbbbbbbbb".toList)).score = 5 ∧
       (evaluate_password ("Aa1!bbbbbbbbbbb".toList)).strength = "Strong") ∧
    ((evaluate_password ("Aa1!bbbbbbbbbbbb".toList)).score = 6 ∧
       (evaluate_password ("Aa1!bbbbbbbbbbbb".toList)).strength = "Strong") :=
  ⟨claim_C6.1 ("Aa1!bbbbbbbbbbb".toList) (by decide) (by decide) (by decide)
      (by decide) (by decide) (by decide),
   claim_C6.2 ("Aa1!bbbbbbbbbbbb".toList) (by decide) (by decide) (by decide)
      (by decide) (by decide)⟩

/-- Counterexample to claim C7 as stated: evaluate_password on
"Ab1!efghijkl" does not return an empty feedback list, because the window
"efg" is an ascending alphabetic run. -/
theorem claim_C7_counterexample :
    (evaluate_password ("Ab1!efghijkl".toList)).feedback ≠ [] := by
  decide

/-- Claim C7 amended: evaluate_password("Ab1!efghijkl") returns strength
"Strong", score 5, and feedback consisting of exactly the sequential-run
warning (triggered by the ascending window "efg"). -/
theorem claim_C7 :
    evaluate_password ("Ab1!efghijkl".toList) = ⟨"Strong", 5, [seqMsg]⟩ := by
  decide

/-- Claim C8: the empty string is not blacklisted, and evaluates to score 0,
strength "Weak", with exactly the length, case, digit and special messages,
in that order. -/
theorem claim_C8 :
    pyLower ("".toList) ∉ BLACKLIST ∧
      evaluate_password ("".toList) =
        ⟨"Weak", 0, [lengthMsg, caseMsg, digitMsg, specialMsg]⟩ := by
  decide

/-- Claim C9: a password rated "Strong" has length at least 12 — without
the +2 credit for length 12 the other contributions reach at most 4, and the
length-16 bonus cannot apply either. -/
theorem claim_C9 (p : List Char) (h : (evaluate_password p).strength = "Strong") :
    12 ≤ p.length := by
  by_contra hlen
  push_neg at hlen
  unfold evaluate_password at h
  split at h
  · exact absurd h (by decide)
  · have hscore : 5 ≤ totalScore p := strengthOf_eq_strong _ h
    have h1 : lengthScore p ≤ 1 := by
      unfold lengthScore
      split
      · omega
      · split <;> omega
    have h5 : bonusScore p = 0 := by
      unfold bonusScore
      split <;> omega
    have h2 := caseScore_le p
    have h3 := digitScore_le p
    have h4 := specialScore_le p
    unfold totalScore at hscore
    omega

/-- Witness for claim C9 at the concrete Strong input "Aa1!Aa1!Aa1!". -/
theorem claim_C9_witness :
    (evaluate_password ("Aa1!Aa1!Aa1!".toList)).strength = "Strong" ∧
      12 ≤ ("Aa1!Aa1!Aa1!".toList).length :=
  ⟨by decide, claim_C9 ("Aa1!Aa1!Aa1!".toList) (by decide)⟩

/-! Generator embedding.  The source draws from the secrets module: each
call of secrets.choice is modelled by an index into the chosen sequence,
and secrets.SystemRandom().shuffle by an arbitrary reordering function.
Theorems take the shuffle correctness (its output is a permutation of its
input) as a hypothesis, which any real shuffle satisfies. -/

/-- Randomness consumed by one attempt of generate_strong_password: the
four seeding draws, the filling draws, and the shuffle. -/
structure RandSource where
  upperIdx : Nat
  lowerIdx : Nat
  digitIdx : Nat
  specialIdx : Nat
  fillIdx : Nat → Nat
  shuffle : List Char → List Char

/-- Model of secrets.choice: the draw from a nonempty sequence selected by
an arbitrary index (every member is reachable by some index). -/
def pychoice (s : List Char) (i : Nat) : Char := s.getD (i % s.length) 'a'

/-- Constant string.ascii_uppercase. -/
def ascii_uppercase : List Char := "ABCDEFGHIJKLMNOPQRSTUVWXYZ".toList

/-- Constant string.ascii_lowercase. -/
def ascii_lowercase : List Char := "abcdefghijklmnopqrstuvwxyz".toList

/-- Constant string.digits. -/
def ascii_digits : List Char := "0123456789".toList

/-- Constant string.ascii_letters, the lowercase letters followed by the
uppercase letters. -/
def ascii_letters : List Char := ascii_lowercase ++ ascii_uppercase

/-- Full generation alphabet of app.py line 138. -/
def allowed_chars : List Char := ascii_letters ++ ascii_digits ++ special_chars

/-- One attempt of generate_strong_password (app.py lines 127-144): clamp
the length to at least 8, seed one character of each required class, fill
up to the clamped length from the full alphabet, and shuffle. -/
def generate_attempt (length : Nat) (r : RandSource) : List Char :=
  let len := if length < 8 then 8 else length
  let seeded : List Char :=
    [pychoice ascii_uppercase r.upperIdx, pychoice ascii_lowercase r.lowerIdx,
     pychoice ascii_digits r.digitIdx, pychoice special_chars r.specialIdx]
  let filled :=
    seeded ++ (List.range (len - 4)).map (fun i => pychoice allowed_chars (r.fillIdx i))
  r.shuffle filled

/-- generate_strong_password of app.py lines 111-150, with the retry on a
blacklist hit (lines 147-148) modelled by fuel: attempt k uses the
randomness rs k, and the recursion retries with fresh randomness.  Fuel 0
yields none; the theorems show one unit of fuel always suffices. -/
def generate_strong_password (length : Nat) (rs : Nat → RandSource) :
    Nat → Nat → Option (List Char)
  | _, 0 => none
  | k, fuel + 1 =>
    let generated := generate_attempt length (rs k)
    if pyLower generated ∈ BLACKLIST then generate_strong_password length rs (k + 1) fuel
    else some generated

/-! Helper lemmas about the generator. -/

lemma pychoice_mem (s : List Char) (h : s ≠ []) (i : Nat) : pychoice s i ∈ s := by
  unfold pychoice
  have hlen : 0 < s.length := List.length_pos.mpr h
  have hm : i % s.length < s.length := Nat.mod_lt _ hlen
  rw [List.getD_eq_getElem s 'a' hm]
  exact List.getElem_mem hm

lemma upper_sub_allowed : ∀ c ∈ ascii_uppercase, c ∈ allowed_chars := by decide

lemma lower_sub_allowed : ∀ c ∈ ascii_lowercase, c ∈ allowed_chars := by decide

lemma digits_sub_allowed : ∀ c ∈ ascii_digits, c ∈ allowed_chars := by decide

lemma special_sub_allowed : ∀ c ∈ special_chars, c ∈ allowed_chars := by decide

lemma upper_isUpper : ∀ c ∈ ascii_uppercase, c.isUpper = true := by decide

lemma lower_isLower : ∀ c ∈ ascii_lowercase, c.isLower = true := by decide

lemma digits_isDigit : ∀ c ∈ ascii_digits, c.isDigit = true := by decide

lemma digits_toLower : ∀ c ∈ ascii_digits, Char.toLower c = c := by decide

lemma special_toLower : ∀ c ∈ special_chars, Char.toLower c = c := by decide

lemma blacklist_not_digit_special :
    ∀ b ∈ BLACKLIST, ¬(hasDigit b = true ∧ hasSpecial b = true) := by decide

/-- Core facts about one generation attempt, assuming the shuffle permutes
its input: the result has the clamped length, contains a member of each of
the four required classes, and draws only from the full alphabet. -/
lemma generate_attempt_spec (length : Nat) (r : RandSource)
    (hperm : ∀ l, (r.shuffle l).Perm l) :
    (generate_attempt length r).length = (if length < 8 then 8 else length) ∧
    (∃ c ∈ generate_attempt length r, c ∈ ascii_uppercase) ∧
    (∃ c ∈ generate_attempt length r, c ∈ ascii_lowercase) ∧
    (∃ c ∈ generate_attempt length r, c ∈ ascii_digits) ∧
    (∃ c ∈ generate_attempt length r, c ∈ special_chars) ∧
    (∀ c ∈ generate_attempt length r, c ∈ allowed_chars) := by
  unfold generate_attempt
  set len := if length < 8 then 8 else length with hlen
  set filled : List Char :=
    [pychoice ascii_uppercase r.upperIdx, pychoice ascii_lowercase r.lowerIdx,
     pychoice ascii_digits r.digitIdx, pychoice special_chars r.specialIdx] ++
      (List.range (len - 4)).map (fun i => pychoice allowed_chars (r.fillIdx i)) with hfilled
  have hp : (r.shuffle filled).Perm filled := hperm filled
  have hmem : ∀ c, c ∈ r.shuffle filled ↔ c ∈ filled := fun c => hp.mem_iff
  refine ⟨?_, ?_, ?_, ?_, ?_, ?_⟩
  · rw [hp.length_eq, hfilled]
    simp only [List.length_append, List.length_cons, List.length_nil, List.length_map,
      List.length_range]
    rw [hlen]
    split <;> omega
  · refine ⟨pychoice ascii_uppercase r.upperIdx, ?_, pychoice_mem _ (by decide) _⟩
    rw [hmem, hfilled]
    simp
  · refine ⟨pychoice ascii_lowercase r.lowerIdx, ?_, pychoice_mem _ (by decide) _⟩
    rw [hmem, hfilled]
    simp
  · refine ⟨pychoice ascii_digits r.digitIdx, ?_, pychoice_mem _ (by decide) _⟩
    rw [hmem, hfilled]
    simp
  · refine ⟨pychoice special_chars r.specialIdx, ?_, pychoice_mem _ (by decide) _⟩
    rw [hmem, hfilled]
    simp
  · intro c hc
    rw [hmem, hfilled] at hc
    simp only [List.mem_append, List.mem_cons, List.not_mem_nil, or_false, List.mem_map,
      List.mem_range] at hc
    rcases hc with ((h | h | h | h) | ⟨i, _, h⟩)
    · exact h ▸ upper_sub_allowed _ (pychoice_mem _ (by decide) _)
    · exact h ▸ lower_sub_allowed _ (pychoice_mem _ (by decide) _)
    · exact h ▸ digits_sub_allowed _ (pychoice_mem _ (by decide) _)
    · exact h ▸ special_sub_allowed _ (pychoice_mem _ (by decide) _)
    · exact h ▸ pychoice_mem _ (by decide) _

/-- Any string containing a digit and a special character stays out of the
blacklist after lowercasing: no blacklist entry has both. -/
lemma pyLower_not_blacklisted (s : List Char)
    (hd : ∃ c ∈ s, c ∈ ascii_digits) (hs : ∃ c ∈ s, c ∈ special_chars) :
    pyLower s ∉ BLACKLIST := by
  intro hmem
  obtain ⟨c, hc, hcd⟩ := hd
  obtain ⟨e, he, hes⟩ := hs
  have h1 : hasDigit (pyLower s) = true := by
    unfold hasDigit pyLower
    rw [List.any_eq_true]
    refine ⟨Char.toLower c, List.mem_map_of_mem _ hc, ?_⟩
    rw [digits_toLower c hcd]
    exact digits_isDigit c hcd
  have h2 : hasSpecial (pyLower s) = true := by
    unfold hasSpecial pyLower
    rw [List.any_eq_true]
    refine ⟨Char.toLower e, List.mem_map_of_mem _ he, ?_⟩
    rw [special_toLower e hes]
    exact decide_eq_true hes
  exact blacklist_not_digit_special _ hmem ⟨h1, h2⟩

/-- Claim C2: with any positive fuel, generate_strong_password succeeds on
its first attempt and returns a string containing at least one character of
each required class, whose length is the requested length clamped to a
minimum of 8, and whose lowercased form is not blacklisted. -/
theorem claim_C2 (length : Nat) (rs : Nat → RandSource) (fuel : Nat)
    (hperm : ∀ l, ((rs 0).shuffle l).Perm l) :
    ∃ s, generate_strong_password length rs 0 (fuel + 1) = some s ∧
      hasUpper s = true ∧ hasLower s = true ∧ hasDigit s = true ∧ hasSpecial s = true ∧
      s.length = (if length < 8 then 8 else length) ∧
      pyLower s ∉ BLACKLIST := by
  obtain ⟨hlen, hu, hl, hd, hs, _⟩ := generate_attempt_spec length (rs 0) hperm
  have hnb : pyLower (generate_attempt length (rs 0)) ∉ BLACKLIST :=
    pyLower_not_blacklisted _ hd hs
  refine ⟨generate_attempt length (rs 0), ?_, ?_, ?_, ?_, ?_, hlen, hnb⟩
  · unfold generate_strong_password
    simp [hnb]
  · obtain ⟨c, hc, hcu⟩ := hu
    unfold hasUpper
    rw [List.any_eq_true]
    exact ⟨c, hc, upper_isUpper c hcu⟩
  · obtain ⟨c, hc, hcl⟩ := hl
    unfold hasLower
    rw [List.any_eq_true]
    exact ⟨c, hc, lower_isLower c hcl⟩
  · obtain ⟨c, hc, hcd⟩ := hd
    unfold hasDigit
    rw [List.any_eq_true]
    exact ⟨c, hc, digits_isDigit c hcd⟩
  · obtain ⟨c, hc, hcs⟩ := hs
    unfold hasSpecial
    rw [List.any_eq_true]
    exact ⟨c, hc, decide_eq_true hcs⟩

/-- Deterministic randomness used to instantiate the generator theorems:
every draw takes index 0 and the shuffle keeps the order. -/
def trivialRand : RandSource :=
  { upperIdx := 0, lowerIdx := 0, digitIdx := 0, specialIdx := 0,
    fillIdx := fun _ => 0, shuffle := fun l => l }

/-- Witness for claim C2 at requested length 3: the result length is the
clamped 8. -/
theorem claim_C2_witness :
    (∀ l, (trivialRand.shuffle l).Perm l) ∧
      (∃ s, generate_strong_password 3 (fun _ => trivialRand) 0 1 = some s ∧
        hasUpper s = true ∧ hasLower s = true ∧ hasDigit s = true ∧ hasSpecial s = true ∧
        s.length = (if 3 < 8 then 8 else 3) ∧
        pyLower s ∉ BLACKLIST) :=
  ⟨fun l => List.Perm.refl l,
   claim_C2 3 (fun _ => trivialRand) 0 (fun l => List.Perm.refl l)⟩

/-- Claim C10: every character of a generated password lies in the fixed
alphabet allowed_chars, which has exactly 70 characters (26 uppercase, 26
lowercase, 10 digits, 8 specials). -/
theorem claim_C10 (length : Nat) (rs : Nat → RandSource) (fuel : Nat)
    (hperm : ∀ l, ((rs 0).shuffle l).Perm l) :
    ∃ s, generate_strong_password length rs 0 (fuel + 1) = some s ∧
      (∀ c ∈ s, c ∈ allowed_chars) ∧ allowed_chars.length = 70 := by
  obtain ⟨_, _, _, hd, hs, hall⟩ := generate_attempt_spec length (rs 0) hperm
  have hnb : pyLower (generate_attempt length (rs 0)) ∉ BLACKLIST :=
    pyLower_not_blacklisted _ hd hs
  refine ⟨generate_attempt length (rs 0), ?_, hall, by decide⟩
  unfold generate_strong_password
  simp [hnb]

/-- Witness for claim C10 at requested length 12. -/
theorem claim_C10_witness :
    (∀ l, (trivialRand.shuffle l).Perm l) ∧
      (∃ s, generate_strong_password 12 (fun _ => trivialRand) 0 1 = some s ∧
        (∀ c ∈ s, c ∈ allowed_chars) ∧ allowed_chars.length = 70) :=
  ⟨fun l => List.Perm.refl l,
   claim_C10 12 (fun _ => trivialRand) 0 (fun l => List.Perm.refl l)⟩

/-! Lemmas for the sequential-run claim. -/

/-- Characterisation of the sequential scan: the loop of app.py lines
92-99 finds a match exactly when some window of three consecutive
characters satisfies the window test. -/
theorem hasSequential_iff : ∀ p : List Char,
    hasSequential p = true ↔
      ∃ i, i + 2 < p.length ∧
        tripleSeq (p.getD i 'a') (p.getD (i + 1) 'a') (p.getD (i + 2) 'a') = true
  | [] => by
      constructor
      · intro h
        simp [hasSequential] at h
      · rintro ⟨i, hi, -⟩
        simp at hi
  | [a] => by
      constructor
      · intro h
        simp [hasSequential] at h
      · rintro ⟨i, hi, -⟩
        simp at hi
  | [a, b] => by
      constructor
      · intro h
        simp [hasSequential] at h
      · rintro ⟨i, hi, -⟩
        simp at hi
  | a :: b :: c :: rest => by
      have hstep : hasSequential (a :: b :: c :: rest) =
          (tripleSeq a b c || hasSequential (b :: c :: rest)) := rfl
      rw [hstep, Bool.or_eq_true, hasSequential_iff (b :: c :: rest)]
      constructor
      · rintro (h | ⟨i, hi, ht⟩)
        · exact ⟨0, by simp, by simpa using h⟩
        · refine ⟨i + 1, ?_, ?_⟩
          · simpa using hi
          · simpa using ht
      · rintro ⟨i, hi, ht⟩
        match i with
        | 0 => exact Or.inl (by simpa using ht)
        | Nat.succ j =>
            refine Or.inr ⟨j, ?_, ?_⟩
            · simpa using hi
            · simpa using ht

/-- Occurrence count of the sequential warning in the feedback: one when
the scan matches, zero otherwise. -/
lemma count_seqMsg_feedbackList (p : List Char) :
    (feedbackList p).count seqMsg = if hasSequential p then 1 else 0 := by
  unfold feedbackList
  split_ifs <;> decide

/-- Membership of the sequential warning in the feedback is equivalent to
the scan matching. -/
lemma seqMsg_mem_feedbackList (p : List Char) :
    seqMsg ∈ feedbackList p ↔ hasSequential p = true := by
  unfold feedbackList
  split_ifs with h1 h2 h3 h4 h5 h6 <;> simp_all <;> decide

/-- Claim C5: for a non-blacklisted password, the feedback contains the
sequential warning exactly when some window of three consecutive characters
is all letters or all digits with codes ascending by one or descending by
one throughout; the warning occurs at most once; and the score equals the
sum of the five scoring contributions, untouched by the scan. -/
theorem claim_C5 (p : List Char) (h : pyLower p ∉ BLACKLIST) :
    ((seqMsg ∈ (evaluate_password p).feedback) ↔
      ∃ i, i + 2 < p.length ∧
        tripleSeq (p.getD i 'a') (p.getD (i + 1) 'a') (p.getD (i + 2) 'a') = true) ∧
    (evaluate_password p).feedback.count seqMsg ≤ 1 ∧
    (evaluate_password p).score =
      lengthScore p + caseScore p + digitScore p + specialScore p + bonusScore p := by
  have hf : (evaluate_password p).feedback = feedbackList p := by
    simp [evaluate_password, h]
  have hsc : (evaluate_password p).score = totalScore p := by
    simp [evaluate_password, h]
  refine ⟨?_, ?_, ?_⟩
  · rw [hf, seqMsg_mem_feedbackList, hasSequential_iff]
  · rw [hf, count_seqMsg_feedbackList]
    split <;> omega
  · rw [hsc]
    rfl

/-- Witness for claim C5 at the concrete input "abcdefgh", whose window
"abc" is an ascending run. -/
theorem claim_C5_witness :
    pyLower ("abcdefgh".toList) ∉ BLACKLIST ∧
      (((seqMsg ∈ (evaluate_password ("abcdefgh".toList)).feedback) ↔
        ∃ i, i + 2 < ("abcdefgh".toList).length ∧
          tripleSeq (("abcdefgh".toList).getD i 'a') (("abcdefgh".toList).getD (i + 1) 'a')
            (("abcdefgh".toList).getD (i + 2) 'a') = true) ∧
      (evaluate_password ("abcdefgh".toList)).feedback.count seqMsg ≤ 1 ∧
      (evaluate_password ("abcdefgh".toList)).score =
        lengthScore ("abcdefgh".toList) + caseScore ("abcdefgh".toList) +
          digitScore ("abcdefgh".toList) + specialScore ("abcdefgh".toList) +
          bonusScore ("abcdefgh".toList)) :=
  ⟨by decide, claim_C5 ("abcdefgh".toList) (by decide)⟩

end PasswordMeter
